import Mathlib

/-!
# Verification of the llm-agent orchestration pipeline

A shallow embedding of the Python sources of the `llm-agent` repository:

* `src/modules/llm.py` — `RateLimiter`, `LLMConfig`, and the post-processing
  of `structured_output_prompt`;
* `src/modules/tools_manager.py` — `ToolResponse`, `ToolManager.execute_command`;
* `src/modules/tools/{weather,search,news,time}_tool.py` — the tool wrappers;
* `src/main.py` — `LLMAgent.process_request`.

Python JSON-like values are embedded as the inductive `JVal` (JSON numbers are
modelled as integers; no claim concerns numeric behaviour).  Python `dict`s are
embedded as association lists (`PyDict`) whose `get`/`update`/`copy` semantics
are spelled out below.  External effects (HTTP calls, the model endpoint, the
clock) are passed in explicitly as oracle values, so every definition is an
executable function of the code path it embeds.
-/

/-- Embedded Python/JSON value.  Numbers are modelled as `Int`. -/
inductive JVal where
  | null
  | bool (b : Bool)
  | num (n : Int)
  | str (s : String)
  | arr (xs : List JVal)
  | obj (kvs : List (String × JVal))

/-- A Python `dict` with `String` keys, as an association list (insertion order
kept, keys unique in every dict the embedded code constructs). -/
abbrev PyDict (V : Type) : Type := List (String × V)

/-- Python `d.get(k)` / `d[k]`: the value stored at the first matching key. -/
def dget {V : Type} : PyDict V → String → Option V
  | [], _ => none
  | (k, v) :: rest, key => if k = key then some v else dget rest key

/-- Python `d.get(k, dflt)`. -/
def dgetD {V : Type} (d : PyDict V) (k : String) (dflt : V) : V :=
  (dget d k).getD dflt

/-- Python `d[k] = v`: replace the first binding of `k`, or append a new one. -/
def dset {V : Type} : PyDict V → String → V → PyDict V
  | [], k, v => [(k, v)]
  | (k', v') :: rest, k, v =>
    if k' = k then (k, v) :: rest else (k', v') :: dset rest k v

/-- Python `base.update(upd)` (entries of `upd` written into `base` in order). -/
def dupdate {V : Type} (base : PyDict V) (upd : PyDict V) : PyDict V :=
  upd.foldl (fun acc kv => dset acc kv.1 kv.2) base

/-- Python truthiness of a `JVal` (`None`, `False`, `0`, `""`, `[]`, `{}` are falsy). -/
def jTruthy : JVal → Bool
  | .null => false
  | .bool b => b
  | .num n => n != 0
  | .str s => s != ""
  | .arr xs => !xs.isEmpty
  | .obj kvs => !kvs.isEmpty

/-- Python `str(v)` restricted to the scalar values the embedded code renders
(f-strings only ever format scalars on the paths the claims touch). -/
def jStr : JVal → String
  | .null => "None"
  | .bool true => "True"
  | .bool false => "False"
  | .num n => toString n
  | .str s => s
  | .arr _ => "<list>"
  | .obj _ => "<dict>"

/-- A Python variable that may hold `None`: `none` becomes the `None` value. -/
def jOpt (o : Option JVal) : JVal := o.getD JVal.null

/-! ## Python string primitives

Implemented structurally over `String.data` so that every concrete instance
reduces inside the kernel. -/

/-- Python's whitespace set for `str.strip()`. -/
def pyWS (c : Char) : Bool :=
  c == ' ' || c == '\t' || c == '\n' || c == '\r' || c == '\x0b' || c == '\x0c'

/-- Python `s.strip()`. -/
def pyStrip (s : String) : String :=
  String.mk (((s.data.dropWhile pyWS).reverse.dropWhile pyWS).reverse)

/-- Python `s.startswith(pre)`. -/
def pyStartsWith (s pre : String) : Bool := pre.data.isPrefixOf s.data

/-- Python `s.endswith(suf)`. -/
def pyEndsWith (s suf : String) : Bool := suf.data.isSuffixOf s.data

/-- Worker for `pySplit`: fuel-indexed left-to-right scan for the separator. -/
def splitFuel (sep : List Char) : Nat → List Char → List Char → List (List Char)
  | 0, l, acc => [acc.reverse ++ l]
  | _ + 1, [], acc => [acc.reverse]
  | n + 1, c :: rest, acc =>
    if sep.isPrefixOf (c :: rest) then
      acc.reverse :: splitFuel sep n (List.drop (sep.length - 1) rest) []
    else
      splitFuel sep n rest (c :: acc)

/-- Python `s.split(sep)` for a non-empty separator. -/
def pySplit (s sep : String) : List String :=
  (splitFuel sep.data (s.data.length + 1) s.data []).map String.mk

/-- Python `sep.join(parts)`. -/
def pyJoin (sep : String) : List String → String
  | [] => ""
  | [x] => x
  | x :: y :: rest => x ++ sep ++ pyJoin sep (y :: rest)

/-- Worker for `pyReplace`. -/
def replFuel (pat repl : List Char) : Nat → List Char → List Char
  | 0, l => l
  | _ + 1, [] => []
  | n + 1, c :: rest =>
    if pat.isPrefixOf (c :: rest) then
      repl ++ replFuel pat repl n (List.drop (pat.length - 1) rest)
    else
      c :: replFuel pat repl n rest

/-- Python `s.replace(pat, repl)` for a non-empty pattern. -/
def pyReplace (s pat repl : String) : String :=
  String.mk (replFuel pat.data repl.data (s.data.length + 1) s.data)

/-- Python `s[:s.rfind(ch) + 1]` guarded by `rfind != -1` (llm.py lines
195–197 and 205–207): keep everything up to and including the last `ch`;
if `ch` does not occur the string is left untouched. -/
def truncAfterLast (ch : Char) (s : String) : String :=
  let rl := s.data.reverse.dropWhile (fun c => c != ch)
  match rl with
  | [] => s
  | _ => String.mk rl.reverse

/-- Index of the first occurrence of `pat` in `l` (`none` when `pat` does
not occur; `pat` is always non-empty where this is used). -/
def firstOcc (pat : List Char) : List Char → Option Nat
  | [] => none
  | c :: rest =>
    if pat.isPrefixOf (c :: rest) then some 0
    else (firstOcc pat rest).map fun i => i + 1

/-- The segment of `l` before the first occurrence of `pat` (all of `l` when
`pat` does not occur). -/
def takeUntilOcc (pat l : List Char) : List Char :=
  match firstOcc pat l with
  | none => l
  | some i => l.take i

/-- Python `s.rsplit(sep, 1)[0]` for a non-empty separator: everything
before the *rightmost* occurrence of `sep` (the whole string when `sep`
does not occur).  The rightmost occurrence in `s` is the first occurrence
of the reversed separator in the reversed string. -/
def pyRsplit1Before (s sep : String) : String :=
  match firstOcc sep.data.reverse s.data.reverse with
  | none => s
  | some j => String.mk ((s.data.reverse.drop (j + sep.data.length)).reverse)

/-! ## RateLimiter (src/modules/llm.py, lines 20–36)

Time is modelled as a rational number of seconds.  `wait` is embedded as a
function from the limiter state and the (monotone) clock reading at the call
to the time at which the call resolves and the updated state; the trailing
`self.last_request_time = time.time()` is the resolve time, since under the
cooperative scheduler no time passes between the end of the sleep and the
assignment. -/

structure RateLimiter where
  requests_per_minute : ℚ
  interval : ℚ
  last_request_time : ℚ

/-- `RateLimiter.__init__` (default rate 10 requests per minute). -/
def RateLimiter.make (rpm : ℚ) : RateLimiter :=
  { requests_per_minute := rpm, interval := 60 / rpm, last_request_time := 0 }

/-- `RateLimiter.wait`, called when the clock reads `now`.  Returns the time at
which the coroutine resumes and the state with the new recorded start time. -/
def RateLimiter.wait (rl : RateLimiter) (now : ℚ) : ℚ × RateLimiter :=
  let time_since_last_request := now - rl.last_request_time
  let resolve :=
    if time_since_last_request < rl.interval then
      now + (rl.interval - time_since_last_request)
    else
      now
  (resolve, { rl with last_request_time := resolve })

/-! ## LLMConfig (src/modules/llm.py, lines 52–69) -/

/-- The environment variables `LLMConfig.__init__` reads via `os.getenv`. -/
structure EnvVars where
  LLM_API_URL : Option String
  LLM_API_KEY : Option String
  LLM_MODEL : Option String

/-- The fields assigned by `LLMConfig.__init__` (the provider enum plays no
role in construction-time validation and is omitted). -/
structure LLMConfigV where
  api_url : Option String
  api_key : Option String
  model : Option String

/-- `LLMConfig.__init__`: `api_url`/`api_key` fall back to the environment,
`model` comes from the environment only; the single validation is the check
`if not self.api_key: raise ValueError(...)` after the assignments.  (Python
also treats an empty-string key as falsy; both "unset" variants are modelled
by `none`, which is the distinction the claims are about.) -/
def LLMConfig_init (envv : EnvVars) (api_url api_key : Option String) :
    Except String LLMConfigV :=
  let cfg : LLMConfigV :=
    { api_url := api_url.orElse fun _ => envv.LLM_API_URL
      api_key := api_key.orElse fun _ => envv.LLM_API_KEY
      model := envv.LLM_MODEL }
  match cfg.api_key with
  | none => Except.error "API key not provided and LLM_API_KEY not found in environment"
  | some _ => Except.ok cfg

/-! ## Structured-output post-processing (src/modules/llm.py, lines 142–218)

The HTTP round trip of `chat_prompt` is external; what the claims concern is
the deterministic post-processing of the raw model reply inside
`structured_output_prompt`.  `json.loads` is the Python standard library, not
code of this repository, so it is passed in as an abstract parameter
`loads : String → Except String JVal` (its error value standing for
`json.JSONDecodeError`). -/

/-- Lines 176–188: strip whitespace, strip a leading ```` ```json ```` or
bare ` ``` ` fence via `str.split` and a trailing fence via `str.rsplit`,
then undo escaped underscores. -/
def cleanResponse (raw : String) : String :=
  let r := pyStrip raw
  let r :=
    if pyStartsWith r "```json" then (pySplit r "```json").getD 1 ""
    else if pyStartsWith r "```" then (pySplit r "```").getD 1 ""
    else r
  let r :=
    if pyEndsWith r "```" then pyRsplit1Before r "```"
    else r
  pyReplace r "\\_" "_"

/-- Lines 190–218: the `try` block.  Dispatch on the first character of the
re-stripped response; `[` truncates after the last `]` and returns the parsed
list (non-list results are wrapped, line 199–200), `{` truncates after the
last `}` and wraps the parsed object in a one-element list (line 209);
anything else raises `ValueError("Response neither starts with [ nor {")`
(line 212) which the `except json.JSONDecodeError` clause does **not** catch;
a decode failure raises a `ValueError` whose message embeds the cleaned
response (lines 216–218). -/
def dispatchParse (loads : String → Except String JVal) (response : String) :
    Except String (List JVal) :=
  let cleaned := pyStrip response
  if pyStartsWith cleaned "[" then
    let cleaned := truncAfterLast ']' cleaned
    match loads cleaned with
    | Except.ok (JVal.arr xs) => Except.ok xs
    | Except.ok v => Except.ok [v]
    | Except.error e =>
      Except.error ("Failed to parse JSON response: " ++ e ++ "\nResponse was: " ++ response)
  else if pyStartsWith cleaned "\x7b" then
    let cleaned := truncAfterLast (Char.ofNat 125) cleaned
    match loads cleaned with
    | Except.ok v => Except.ok [v]
    | Except.error e =>
      Except.error ("Failed to parse JSON response: " ++ e ++ "\nResponse was: " ++ response)
  else
    Except.error "Response neither starts with [ nor \x7b"

/-- The full post-processing of `structured_output_prompt` applied to the raw
reply text returned by the model. -/
def structured_output_parse (loads : String → Except String JVal)
    (raw : String) : Except String (List JVal) :=
  dispatchParse loads (cleanResponse raw)

/-- A small concrete stand-in for `json.loads`, used by witnesses and
counterexamples (only the strings those instances reach are mapped). -/
def loadsDemo : String → Except String JVal := fun s =>
  if s = "[1, 2]" then Except.ok (JVal.arr [JVal.num 1, JVal.num 2])
  else if s = "[1]" then Except.ok (JVal.arr [JVal.num 1])
  else if s = "\x7b\"a\": 1\x7d" then Except.ok (JVal.obj [("a", JVal.num 1)])
  else Except.error "Expecting value: line 1 column 1 (char 0)"

/-! ### Specification-side restatement of the parser

The next four definitions restate the post-processing in the words of the
(amended) C6 claim, using machinery independent of the `str.split`-based
source embedding — truncation and fence handling via first-occurrence
indices, dispatch via the head character.  The C6 theorem proves the source
embedding equal to this restatement on *every* reply and every `loads`. -/

/-- "Truncate after the last `ch`": keep the prefix up to and including the
last occurrence of `ch` (everything when `ch` does not occur), phrased via
the first occurrence in the reversed text. -/
def truncAtLast (ch : Char) (s : String) : String :=
  match firstOcc [ch] s.data.reverse with
  | none => s
  | some j => String.mk (s.data.take (s.data.length - j))

/-- The cleaning stage as the amended claim describes it: after whitespace
stripping, a reply beginning with a ```` ```json ````-tagged fence (or,
failing that, a bare ` ``` ` fence — other language tags are not
recognized) keeps only the segment between that marker and its next
occurrence (everything after it when there is no second occurrence); a
trailing ` ``` ` fence is then removed, and escaped underscores undone. -/
def specCleanResponse (raw : String) : String :=
  let r := pyStrip raw
  let r :=
    if pyStartsWith r "```json" then
      String.mk (takeUntilOcc "```json".data (r.data.drop "```json".data.length))
    else if pyStartsWith r "```" then
      String.mk (takeUntilOcc "```".data (r.data.drop "```".data.length))
    else r
  let r :=
    if pyEndsWith r "```" then String.mk (r.data.take (r.data.length - 3))
    else r
  pyReplace r "\\_" "_"

/-- The dispatch stage as the claim describes it: look at the first
character of the re-stripped cleaned text; `[` truncates after the last `]`
and returns the parsed array, `{` truncates after the last `}` and returns
the parsed object wrapped in a one-element sequence, anything else (or an
empty text) is a parse failure. -/
def specDispatch (loads : String → Except String JVal) (response : String) :
    Except String (List JVal) :=
  let cleaned := pyStrip response
  match cleaned.data.head? with
  | some c =>
    if c = '[' then
      match loads (truncAtLast ']' cleaned) with
      | Except.ok (JVal.arr xs) => Except.ok xs
      | Except.ok v => Except.ok [v]
      | Except.error e =>
        Except.error ("Failed to parse JSON response: " ++ e ++ "\nResponse was: " ++ response)
    else if c = Char.ofNat 123 then
      match loads (truncAtLast (Char.ofNat 125) cleaned) with
      | Except.ok v => Except.ok [v]
      | Except.error e =>
        Except.error ("Failed to parse JSON response: " ++ e ++ "\nResponse was: " ++ response)
    else Except.error "Response neither starts with [ nor \x7b"
  | none => Except.error "Response neither starts with [ nor \x7b"

/-- The whole post-processing as the amended claim describes it. -/
def specStructuredParse (loads : String → Except String JVal)
    (raw : String) : Except String (List JVal) :=
  specDispatch loads (specCleanResponse raw)

/-! ## Tool wrappers (src/modules/tools/)

Each wrapper's HTTP interaction is an external effect, passed in as an
outcome oracle.  `HttpOut.ok body` is a 2xx reply whose decoded JSON body is
`body`; `HttpOut.timeout` is `requests.exceptions.Timeout`;
`HttpOut.reqError m` is any other `requests.exceptions.RequestException`
(connection failure or the re-raise of `raise_for_status`) whose `str` is
`m`.  Inside the `try` bodies, Python runtime errors raised by operating on
an unexpected body shape (`AttributeError` from `.get` on a non-dict,
`IndexError`/`TypeError` from indexing) are threaded through `Except` and
converted by the wrappers' generic `except Exception` clauses exactly where
the source converts them. -/

inductive HttpOut where
  | ok (body : JVal)
  | timeout
  | reqError (msg : String)

/-- Python `v.get(k)` on a value that must be a dict (raises otherwise). -/
def jGetOpt (v : JVal) (k : String) : Except String JVal :=
  match v with
  | JVal.obj kvs => Except.ok (jOpt (dget kvs k))
  | _ => Except.error "AttributeError: object has no attribute get"

/-- weather_tool.py lines 28–58: the `try` body after the HTTP call. -/
def WeatherTool.getWeatherBody (location : JVal) (data : JVal) :
    Except String (PyDict JVal) :=
  match data with
  | JVal.obj kvs =>
    -- if data.get("cod") and str(data["cod"]) != "200":
    let condCod :=
      match dget kvs "cod" with
      | none => false
      | some c => jTruthy c && !(jStr c == "200")
    if condCod then
      Except.ok
        [("error", dgetD kvs "message" (JVal.str "Unknown error from weather API")),
         ("location", location), ("temperature", JVal.null), ("conditions", JVal.null)]
    else do
      let mainv := dgetD kvs "main" (JVal.obj [])
      let temp ← jGetOpt mainv "temp"
      let feels ← jGetOpt mainv "feels_like"
      let hum ← jGetOpt mainv "humidity"
      let wlist := dgetD kvs "weather" (JVal.arr [JVal.obj []])
      let w0 ←
        match wlist with
        | JVal.arr (x :: _) => Except.ok x
        | JVal.arr [] => Except.error "IndexError: list index out of range"
        | _ => Except.error "TypeError: object is not subscriptable"
      let conditions ← jGetOpt w0 "description"
      let windv := dgetD kvs "wind" (JVal.obj [])
      let speed ← jGetOpt windv "speed"
      let sysv := dgetD kvs "sys" (JVal.obj [])
      let country ← jGetOpt sysv "country"
      Except.ok
        [("location", location), ("temperature", temp), ("feels_like", feels),
         ("humidity", hum), ("conditions", conditions), ("wind_speed", speed),
         ("country", country), ("city", jOpt (dget kvs "name")),
         ("timestamp", jOpt (dget kvs "dt"))]
  | _ => Except.error "AttributeError: object has no attribute get"

/-- `WeatherTool.get_weather` (weather_tool.py lines 24–83): every exception
is caught and converted to a dict carrying an `error` key; the function never
raises. -/
def WeatherTool.get_weather (location : JVal) (h : HttpOut) : PyDict JVal :=
  match h with
  | HttpOut.ok data =>
    match WeatherTool.getWeatherBody location data with
    | Except.ok d => d
    | Except.error e =>
      [("error", JVal.str ("Unexpected error: " ++ e)), ("location", location),
       ("temperature", JVal.null), ("conditions", JVal.null)]
  | HttpOut.timeout =>
    [("error", JVal.str "Request timed out after multiple retries"),
     ("location", location), ("temperature", JVal.null), ("conditions", JVal.null)]
  | HttpOut.reqError m =>
    [("error", JVal.str ("Failed to get weather data: " ++ m)),
     ("location", location), ("temperature", JVal.null), ("conditions", JVal.null)]

/-- search_tool.py lines 39–43: the metatag loop with `break` (a non-dict
metatag makes the `in` test raise for the non-container case). -/
def SearchTool.metaLoop (metatags : List JVal) (desc : JVal) : Except String JVal :=
  match metatags with
  | [] => Except.ok desc
  | m :: rest =>
    match m with
    | JVal.obj kvs =>
      match dget kvs "og:description" with
      | some d => Except.ok d
      | none => SearchTool.metaLoop rest desc
    | _ => Except.error "TypeError: argument is not a container"

/-- search_tool.py lines 36–51: build one result entry from an item. -/
def SearchTool.searchItem (item : JVal) : Except String (PyDict JVal) :=
  match item with
  | JVal.obj kvs => do
    let desc0 := dgetD kvs "snippet" (JVal.str "")
    let desc ←
      match dget kvs "pagemap" with
      | some pm =>
        match pm with
        | JVal.obj pmkvs =>
          (match dget pmkvs "metatags" with
           | some (JVal.arr mts) => SearchTool.metaLoop mts desc0
           | some _ => Except.error "TypeError: object is not iterable"
           | none => Except.ok desc0)
        | _ => Except.error "TypeError: argument is not a container"
      | none => Except.ok desc0
    Except.ok
      [("title", dgetD kvs "title" (JVal.str "")), ("description", desc),
       ("url", dgetD kvs "link" (JVal.str ""))]
  | _ => Except.error "AttributeError: object has no attribute get"

/-- search_tool.py lines 35–36: `for item in data["items"]`. -/
def SearchTool.itemsLoop : List JVal → Except String (List (PyDict JVal))
  | [] => Except.ok []
  | it :: rest => do
    let r ← SearchTool.searchItem it
    let rs ← SearchTool.itemsLoop rest
    Except.ok (r :: rs)

/-- search_tool.py lines 32–62: the `try` body after the HTTP call. -/
def SearchTool.searchBody (query : JVal) (data : JVal) :
    Except String (PyDict JVal) := do
  let results ←
    match data with
    | JVal.obj kvs =>
      (match dget kvs "items" with
       | some (JVal.arr items) => SearchTool.itemsLoop items
       | some _ => Except.error "TypeError: object is not iterable"
       | none => Except.ok [])
    | _ => Except.error "TypeError: argument is not a container"
  let abstract :=
    match results with
    | [] => ""
    | r :: _ =>
      jStr (dgetD r "title" (JVal.str "")) ++ ": " ++
        jStr (dgetD r "description" (JVal.str ""))
  Except.ok
    [("abstract", JVal.str abstract),
     ("results", JVal.arr (results.map JVal.obj)), ("query", query)]

/-- `SearchTool.search` (search_tool.py lines 13–77): `except Timeout` and a
generic `except Exception` both return a dict carrying an `error` key; the
function never raises. -/
def SearchTool.search (query : JVal) (h : HttpOut) : PyDict JVal :=
  match h with
  | HttpOut.ok data =>
    match SearchTool.searchBody query data with
    | Except.ok d => d
    | Except.error e =>
      [("error", JVal.str e), ("results", JVal.arr []),
       ("abstract", JVal.str ("Search error occurred while searching for: " ++ jStr query)),
       ("query", query)]
  | HttpOut.timeout =>
    [("error", JVal.str "Search request timed out"), ("results", JVal.arr []),
     ("abstract", JVal.str "Search timed out, please try again"), ("query", query)]
  | HttpOut.reqError m =>
    [("error", JVal.str m), ("results", JVal.arr []),
     ("abstract", JVal.str ("Search error occurred while searching for: " ++ jStr query)),
     ("query", query)]

/-- Outcome of the news HTTP call: `NewsTool.get_latest_news` has no
`try`/`except`, so a raising `requests.get` propagates (`exn`). -/
inductive NewsOut where
  | ok (body : JVal)
  | exn (msg : String)

/-- `NewsTool.get_latest_news` (news_tool.py lines 10–16): returns
`response.json()` verbatim; exceptions propagate to the caller. -/
def NewsTool.get_latest_news (_topic : JVal) (h : NewsOut) : Except String JVal :=
  match h with
  | NewsOut.ok body => Except.ok body
  | NewsOut.exn m => Except.error m

/-- The user location resolved by `location_detector.get_location()`
(src/modules/utils/location.py), cached per process. -/
structure Location where
  city : String
  country : String
  timezone : String

/-- Outcome of `TimeTool.get_time`'s body: the formatted clock readings come
from the real clock, so they are oracle data; `unknownTZ` is
`pytz.exceptions.UnknownTimeZoneError`, `exn` any other exception. -/
inductive TimeOut where
  | ok (current_time date : String) (unix : Int) (is_dst : Bool)
  | unknownTZ (nowUTC : String)
  | exn (msg : String) (nowUTC : String)

/-- `TimeTool.get_time` (time_tool.py lines 11–42): falls back to the cached
location's timezone when the argument is falsy; every exception is caught and
converted to a dict carrying an `error` key. -/
def TimeTool.get_time (loc : Location) (tz : JVal) (h : TimeOut) : PyDict JVal :=
  let timezone := if jTruthy tz then tz else JVal.str loc.timezone
  match h with
  | TimeOut.ok t d u dst =>
    [("timezone", timezone), ("current_time", JVal.str t), ("date", JVal.str d),
     ("unix_timestamp", JVal.num u), ("is_dst", JVal.bool dst)]
  | TimeOut.unknownTZ now =>
    [("error", JVal.str ("Unknown timezone: " ++ jStr timezone)),
     ("timezone", JVal.str "UTC"), ("current_time", JVal.str now)]
  | TimeOut.exn m now =>
    [("error", JVal.str m), ("timezone", JVal.str "UTC"),
     ("current_time", JVal.str now)]

/-! ## ToolManager (src/modules/tools_manager.py) -/

/-- `ToolResponse` (tools_manager.py lines 13–16): the pydantic model with
`success`, `data` (a mapping) and optional `error`. -/
structure ToolResponse where
  success : Bool
  data : PyDict JVal
  error : Option String

/-- The allow-list `Config.ALLOWED_COMMANDS` (src/modules/config.py). -/
def ALLOWED_COMMANDS : List String := ["search", "news", "weather", "time", "help"]

/-- The state `ToolManager.__init__` builds: the cached location and the
per-command defaults derived from it (tools_manager.py lines 26–37). -/
structure ToolManagerState where
  location : Location
  defaults : PyDict (PyDict JVal)

/-- `ToolManager.__init__` given the detected location. -/
def ToolManager.init (loc : Location) : ToolManagerState :=
  { location := loc
    defaults :=
      [("search", [("query", JVal.str "latest news")]),
       ("weather", [("location", JVal.str (loc.city ++ ", " ++ loc.country))]),
       ("news", [("topic", JVal.str "technology")]),
       ("time", [("timezone", JVal.str loc.timezone)])] }

/-- tools_manager.py lines 50–53: `tool_params = self.defaults.get(command,
{}).copy(); if params: tool_params.update(params)` (an empty caller dict is
falsy, so the copy of the defaults is used as-is). -/
def merged_params (tm : ToolManagerState) (command : String)
    (params : PyDict JVal) : PyDict JVal :=
  match params with
  | [] => dgetD tm.defaults command []
  | _ :: _ => dupdate (dgetD tm.defaults command []) params

/-- One underlying tool invocation recorded by `execute_command` (with the
argument extracted from the merged params); `help` makes none. -/
inductive TCall where
  | searchC (q : JVal)
  | newsC (t : JVal)
  | weatherC (l : JVal)
  | timeC (tz : JVal)

/-- The external outcomes of the four tools' effects for one
`execute_command` invocation. -/
structure ToolEnv where
  search : HttpOut
  news : NewsOut
  weather : HttpOut
  time : TimeOut

/-- The f-string of tools_manager.py line 46 (Python renders the list of
allowed commands with quoted elements). -/
def notAllowedMsg (command : String) : String :=
  "Command " ++ command ++
    " not allowed. Allowed commands: [\x27search\x27, \x27news\x27, \x27weather\x27, \x27time\x27, \x27help\x27]"

/-- The message of the pydantic `ValidationError` raised when
`ToolResponse(success=True, data=result)` receives a non-mapping `result`
(caught by the `except Exception` clause like any other exception; the exact
wording is irrelevant to every claim). -/
def pydanticErrMsg : String :=
  "1 validation error for ToolResponse: data is not a valid dict"

/-- The static `help` result (tools_manager.py lines 70–78). -/
def helpResult (tm : ToolManagerState) : PyDict JVal :=
  [("available_commands", JVal.obj
    [("search", JVal.str ("Search for information (default: " ++
        jStr (jOpt (dget (dgetD tm.defaults "search" []) "query")) ++ ")")),
     ("news", JVal.str ("Get latest news (default: " ++
        jStr (jOpt (dget (dgetD tm.defaults "news" []) "topic")) ++ ")")),
     ("weather", JVal.str ("Get weather information (default: " ++
        jStr (jOpt (dget (dgetD tm.defaults "weather" []) "location")) ++ ")")),
     ("time", JVal.str ("Get current time (default: " ++
        jStr (jOpt (dget (dgetD tm.defaults "time" []) "timezone")) ++ ")")),
     ("help", JVal.str "Show available commands")])]

/-- `ToolManager.execute_command` (tools_manager.py lines 39–83).  Returns the
`ToolResponse` together with the list of underlying tool invocations made.
The final `match` embeds lines 80–83: a tool result that is a mapping is
wrapped as a success; a raising branch (news transport failure, or pydantic
rejecting a non-mapping) is caught by `except Exception` and becomes a
failure with `error=str(e)`.  The function is total: no exception escapes. -/
def ToolManager.execute_command (tm : ToolManagerState) (command : String)
    (params : PyDict JVal) (env : ToolEnv) : ToolResponse × List TCall :=
  if command ∈ ALLOWED_COMMANDS then
    let tool_params := merged_params tm command params
    let invoke : Except String JVal × List TCall :=
      if command = "search" then
        let q := jOpt (dget tool_params "query")
        (Except.ok (JVal.obj (SearchTool.search q env.search)), [TCall.searchC q])
      else if command = "news" then
        let t := jOpt (dget tool_params "topic")
        (NewsTool.get_latest_news t env.news, [TCall.newsC t])
      else if command = "weather" then
        let l := jOpt (dget tool_params "location")
        (Except.ok (JVal.obj (WeatherTool.get_weather l env.weather)), [TCall.weatherC l])
      else if command = "time" then
        let tz := jOpt (dget tool_params "timezone")
        (Except.ok (JVal.obj (TimeTool.get_time tm.location tz env.time)), [TCall.timeC tz])
      else
        -- the remaining allowed command is "help": a static dict, no call
        (Except.ok (JVal.obj (helpResult tm)), [])
    match invoke with
    | (Except.error e, calls) =>
      ({ success := false, data := [], error := some e }, calls)
    | (Except.ok r, calls) =>
      match r with
      | JVal.obj kvs => ({ success := true, data := kvs, error := none }, calls)
      | _ => ({ success := false, data := [], error := some pydanticErrMsg }, calls)
  else
    ({ success := false, data := [], error := some (notAllowedMsg command) }, [])

/-- A concrete location (the fallback of location.py lines 27–31). -/
def locDemo : Location := { city := "London", country := "UK", timezone := "Europe/London" }

/-- A concrete manager state for witnesses and counterexamples. -/
def tmDemo : ToolManagerState := ToolManager.init locDemo

/-- A tool environment in which both HTTP-backed lookup tools time out and
the news call raises. -/
def envFailDemo : ToolEnv :=
  { search := HttpOut.timeout, news := NewsOut.exn "boom"
    weather := HttpOut.timeout, time := TimeOut.exn "tick" "12:00 PM" }

/-! ## Orchestrator (src/main.py, `LLMAgent.process_request`)

The three model calls are external: the parsed plan (phase 1), the parsed
draft analysis (phase 3) and the final chat reply (phase 5) are oracle data
in `OrchEnv`.  The final reply is a function of the list `additional_info`
actually passed into the synthesis prompt, so the theorems can observe which
enrichment items reach phase 5.  `process_request` also returns the ordered
trace of the model calls and `execute_command` invocations it performs. -/

/-- One orchestrator-level call: the planning `structured_output_prompt`
(main.py line 47), the draft `structured_output_prompt` (line 101), the final
`chat_prompt` (line 145), or a `tool_manager.execute_command` invocation
(lines 67 and 123). -/
inductive OCall where
  | planLLM
  | draftLLM
  | finalLLM
  | exec (command : String)

/-- The draft analysis parsed from phase 3's structured output (`analysis` in
main.py; fields read via `.get`, absent keys giving `None`).  `needs_search`
is typed as an optional list: the schema requests an array of query strings,
and only its Python truthiness and iteration are used. -/
structure DraftAnalysis where
  draft_answer : Option JVal
  suggestions : Option JVal
  needs_search : Option (List JVal)

/-- The oracle data for one `process_request` run: the parsed plan, the tool
outcomes of each plan entry (by position), the draft analysis, the tool
outcomes of each enrichment search (by position), and the final chat reply as
a function of the `additional_info` list handed to the synthesis prompt. -/
structure OrchEnv where
  plan : List (String × PyDict JVal)
  planToolEnv : Nat → ToolEnv
  analysis : DraftAnalysis
  searchToolEnv : Nat → ToolEnv
  finalAnswer : List (PyDict JVal) → String

/-- main.py lines 65–70: `asyncio.gather` over
`execute_command(cmd["command"], cmd["params"])` for each plan entry, results
in plan order. -/
def planResponses (tm : ToolManagerState) (env : OrchEnv) : List ToolResponse :=
  env.plan.enum.map fun p =>
    (ToolManager.execute_command tm p.2.1 p.2.2 (env.planToolEnv p.1)).1

/-- main.py lines 121–127: the enrichment loop.  For each query (in order)
invoke the dispatcher's `search` command with `{"query": query}`; append
`{"query": ..., "data": ...}` only when the result succeeded.  Returns the
collected `additional_info` and the trace of dispatcher invocations. -/
def enrichLoop (tm : ToolManagerState) (envs : Nat → ToolEnv) :
    List JVal → Nat → List (PyDict JVal) × List OCall
  | [], _ => ([], [])
  | q :: rest, i =>
    let resp := (ToolManager.execute_command tm "search" [("query", q)] (envs i)).1
    let tail := enrichLoop tm envs rest (i + 1)
    ((if resp.success then [[("query", q), ("data", JVal.obj resp.data)]] else []) ++ tail.1,
     OCall.exec "search" :: tail.2)

/-- `LLMAgent.process_request` (main.py lines 13–150), from the point where
the plan has been parsed.  Returns the reply shown to the caller and the
ordered trace of model/tool calls.  Lines 72–75: collect the `error` fields
of the failing responses and, if any, return the aggregated message without
running phases 3–5 (every failing `execute_command` response carries
`error=some _`, see `execute_command_fail_error` below, so the `getD`
default is dead code standing in for Python's join over the strings).
Line 119: `if analysis.get("needs_search"):` — absent or empty means the
enrichment loop body never runs. -/
def LLMAgent.process_request (tm : ToolManagerState) (env : OrchEnv) :
    String × List OCall :=
  let planCalls : List OCall := OCall.planLLM :: env.plan.map fun p => OCall.exec p.1
  let tool_responses := planResponses tm env
  let errors := (tool_responses.filter fun r => !r.success).map fun r => r.error.getD ""
  match errors with
  | _ :: _ => ("Error(s) occurred: " ++ pyJoin "; " errors, planCalls)
  | [] =>
    let draftCalls := planCalls ++ [OCall.draftLLM]
    let enr :=
      match env.analysis.needs_search with
      | some (q :: qs) => enrichLoop tm env.searchToolEnv (q :: qs) 0
      | _ => ([], [])
    (env.finalAnswer enr.1, draftCalls ++ enr.2 ++ [OCall.finalLLM])

/-- Bool-valued substring test (used to state that a raised error message
does not contain the raw reply text). -/
def listInfixB (small big : List Char) : Bool :=
  (List.range (big.length + 1)).any fun i => small.isPrefixOf (big.drop i)

/-- A tool environment in which the news API answers 200 with body `{}`. -/
def envNewsEmpty : ToolEnv :=
  { search := HttpOut.timeout, news := NewsOut.ok (JVal.obj [])
    weather := HttpOut.timeout, time := TimeOut.exn "tick" "12:00 PM" }

/-- An orchestrator environment whose plan contains a disallowed command, for
the C1 witness. -/
def envC1 : OrchEnv :=
  { plan := [("weather", []), ("frobnicate", [])]
    planToolEnv := fun _ => envFailDemo
    analysis := { draft_answer := none, suggestions := none, needs_search := none }
    searchToolEnv := fun _ => envFailDemo
    finalAnswer := fun _ => "final answer" }

/-- An orchestrator environment whose plan succeeds and whose draft analysis
requests one follow-up search, for the C7 witness. -/
def envC7 : OrchEnv :=
  { plan := [("help", [])]
    planToolEnv := fun _ => envFailDemo
    analysis :=
      { draft_answer := some (JVal.str "draft"), suggestions := some (JVal.arr [])
        needs_search := some [JVal.str "lean theorem prover"] }
    searchToolEnv := fun _ => envFailDemo
    finalAnswer := fun info => "final with " ++ toString info.length ++ " extras" }

/-! ## Helper lemmas -/

theorem dget_dset_self {V : Type} (d : PyDict V) (k : String) (v : V) :
    dget (dset d k v) k = some v := by
  induction d with
  | nil => simp [dset, dget]
  | cons hd tl ih =>
    by_cases h : hd.1 = k
    · simp [dset, h, dget]
    · simp [dset, h, dget, ih]

theorem dget_dset_ne {V : Type} (d : PyDict V) (k : String) (v : V)
    (k2 : String) (h : k ≠ k2) : dget (dset d k v) k2 = dget d k2 := by
  induction d with
  | nil => simp [dset, dget, h]
  | cons hd tl ih =>
    by_cases h' : hd.1 = k
    · simp [dset, h', dget, h]
    · simp [dset, h', dget, ih]

theorem dget_eq_none_of_not_mem {V : Type} (d : PyDict V) (k : String)
    (h : k ∉ d.map Prod.fst) : dget d k = none := by
  induction d with
  | nil => rfl
  | cons hd tl ih =>
    simp only [List.map_cons, List.mem_cons] at h
    push_neg at h
    have hne : hd.1 ≠ k := fun he => h.1 he.symm
    simp [dget, hne, ih h.2]

/-- Python-dict lookup after `base.update(upd)`: an `upd` key wins, a key
absent from `upd` falls back to `base`. -/
theorem dget_dupdate {V : Type} (base upd : PyDict V) (k : String)
    (h : (upd.map Prod.fst).Nodup) :
    dget (dupdate base upd) k = (dget upd k).orElse fun _ => dget base k := by
  induction upd generalizing base with
  | nil => simp [dupdate, dget, Option.orElse]
  | cons hd tl ih =>
    simp only [List.map_cons, List.nodup_cons] at h
    have hstep : dupdate base (hd :: tl) = dupdate (dset base hd.1 hd.2) tl := rfl
    rw [hstep, ih _ h.2]
    by_cases hk : hd.1 = k
    · subst hk
      rw [dget_eq_none_of_not_mem tl hd.1 h.1]
      simp [dget, dget_dset_self, Option.orElse]
    · simp [dget, hk, dget_dset_ne base hd.1 hd.2 k hk]

/-- Every failing `execute_command` response carries an error string. -/
theorem execute_command_fail_error (tm : ToolManagerState) (command : String)
    (params : PyDict JVal) (env : ToolEnv)
    (h : (ToolManager.execute_command tm command params env).1.success = false) :
    ∃ e, (ToolManager.execute_command tm command params env).1.error = some e := by
  unfold ToolManager.execute_command at *
  by_cases hmem : command ∈ ALLOWED_COMMANDS
  · simp only [hmem, if_pos] at *
    by_cases h1 : command = "search"
    · simp [h1] at h
    · by_cases h2 : command = "news"
      · simp only [h1, if_neg, h2, if_pos] at *
        cases hn : env.news with
        | ok body =>
          cases body <;> simp [NewsTool.get_latest_news, hn] at h ⊢
        | exn m => simp [NewsTool.get_latest_news, hn]
      · by_cases h3 : command = "weather"
        · simp [h1, h2, h3] at h
        · by_cases h4 : command = "time"
          · simp [h1, h2, h3, h4] at h
          · simp [h1, h2, h3, h4] at h
  · simp [hmem]

theorem filter_fail_nil (rs : List ToolResponse)
    (h : ∀ r ∈ rs, r.success = true) :
    rs.filter (fun r => !r.success) = [] := by
  induction rs with
  | nil => rfl
  | cons hd tl ih =>
    have hh := h hd (by simp)
    simp [List.filter, hh, ih fun r hr => h r (by simp [hr])]

/-- Closed form of the enrichment loop: one dispatcher `search` invocation
per query, and the successful results (paired with their query) in order. -/
theorem enrichLoop_eq (tm : ToolManagerState) (envs : Nat → ToolEnv)
    (qs : List JVal) (i : Nat) :
    enrichLoop tm envs qs i =
      ((List.enumFrom i qs).filterMap fun p =>
        let resp := (ToolManager.execute_command tm "search" [("query", p.2)] (envs p.1)).1
        if resp.success then some [("query", p.2), ("data", JVal.obj resp.data)] else none,
       qs.map fun _ => OCall.exec "search") := by
  induction qs generalizing i with
  | nil => rfl
  | cons q rest ih =>
    simp only [enrichLoop, ih (i + 1), List.enumFrom, List.filterMap, List.map]
    cases hs : (ToolManager.execute_command tm "search" [("query", q)] (envs i)).1.success <;>
      simp [hs]

/-- Head element of a `splitFuel` scan: the accumulator followed by the
segment before the first occurrence of the separator. -/
theorem splitFuel_head (pat : List Char) :
    ∀ (l : List Char) (fuel : Nat) (acc : List Char), l.length + 1 ≤ fuel →
      (splitFuel pat fuel l acc).getD 0 [] = acc.reverse ++ takeUntilOcc pat l := by
  intro l
  induction l with
  | nil =>
    intro fuel acc hf
    match fuel, hf with
    | f + 1, _ => simp [splitFuel, takeUntilOcc, firstOcc]
  | cons c rest ih =>
    intro fuel acc hf
    match fuel, hf with
    | f + 1, hf =>
      have hb : rest.length + 1 ≤ f := by
        simp only [List.length_cons] at hf
        omega
      cases hp : pat.isPrefixOf (c :: rest) with
      | true => simp [splitFuel, hp, takeUntilOcc, firstOcc]
      | false =>
        simp only [splitFuel, hp, Bool.false_eq_true, if_false]
        rw [ih f (c :: acc) hb]
        cases ho : firstOcc pat rest <;>
          simp [takeUntilOcc, firstOcc, hp, ho]

/-- Element 1 of a `str.split` whose input begins with the separator: the
segment between the first and second occurrences of the separator. -/
theorem splitFuel_append_getD1 (p0 : Char) (ps tail : List Char) :
    (splitFuel (p0 :: ps) (((p0 :: ps) ++ tail).length + 1) ((p0 :: ps) ++ tail) []).getD 1 []
      = takeUntilOcc (p0 :: ps) tail := by
  have hcond : (p0 :: ps).isPrefixOf (p0 :: (ps ++ tail)) = true :=
    List.isPrefixOf_iff_prefix.mpr ⟨tail, by simp⟩
  have hlen : ps.length + 1 - 1 = ps.length := by omega
  simp only [List.cons_append, List.length_cons, List.length_append, splitFuel, hcond,
    if_true, hlen, List.drop_left]
  have hb : tail.length + 1 ≤ ps.length + tail.length + 1 := by omega
  simpa using splitFuel_head (p0 :: ps) tail (ps.length + tail.length + 1) [] hb

/-- The source's leading-fence step on a reply starting with the marker. -/
theorem pySplit_getD1_of_startsWith (r pat : String) (p0 : Char) (ps : List Char)
    (hpat : pat.data = p0 :: ps) (h : pyStartsWith r pat = true) :
    (pySplit r pat).getD 1 "" =
      String.mk (takeUntilOcc pat.data (r.data.drop pat.data.length)) := by
  obtain ⟨tail, htail⟩ := List.isPrefixOf_iff_prefix.mp h
  have hgd : ∀ (L : List (List Char)) (i : Nat),
      (L.map String.mk).getD i "" = String.mk (L.getD i []) := by
    intro L
    induction L with
    | nil => intro i; cases i <;> rfl
    | cons x xs ih =>
      intro i
      cases i with
      | zero => rfl
      | succ j => exact ih j
  unfold pySplit
  rw [hgd, ← htail, List.drop_left, hpat, splitFuel_append_getD1]

/-- The source's trailing-fence step: guarded by `endswith`, `rsplit`
removes exactly the trailing marker. -/
theorem pyRsplit1Before_of_endsWith (s : String) (h : pyEndsWith s "```" = true) :
    pyRsplit1Before s "```" = String.mk (s.data.take (s.data.length - 3)) := by
  have hp : ("```".data.reverse).isPrefixOf s.data.reverse = true := h
  cases hs : s.data.reverse with
  | nil =>
    rw [hs] at hp
    exact absurd hp (by decide)
  | cons c rest =>
    rw [hs] at hp
    have hfo : firstOcc "```".data.reverse s.data.reverse = some 0 := by
      rw [hs]
      simp only [firstOcc]
      rw [if_pos hp]
    have h3 : 0 + "```".data.length = 3 := by decide
    simp only [pyRsplit1Before, hfo, h3]
    rw [List.drop_reverse, List.reverse_reverse]

/-- Relates the first-occurrence index of a single character to the
`dropWhile` scan the source-side truncation uses. -/
theorem firstOcc_single_dropWhile (ch : Char) (m : List Char) :
    (firstOcc [ch] m = none ∧ m.dropWhile (fun c => c != ch) = [])
    ∨ ∃ j, firstOcc [ch] m = some j ∧ m.dropWhile (fun c => c != ch) = m.drop j
        ∧ m.drop j ≠ [] := by
  induction m with
  | nil => exact Or.inl ⟨rfl, rfl⟩
  | cons c rest ih =>
    by_cases hc : c = ch
    · subst hc
      refine Or.inr ⟨0, ?_, ?_, ?_⟩
      · have hx : [c].isPrefixOf (c :: rest) = true :=
          List.isPrefixOf_iff_prefix.mpr ⟨rest, rfl⟩
        simp only [firstOcc]
        rw [if_pos hx]
      · simp [List.dropWhile, bne_self_eq_false]
      · simp
    · have hpre : ([ch].isPrefixOf (c :: rest)) = false := by
        cases hx : [ch].isPrefixOf (c :: rest) with
        | false => rfl
        | true =>
          obtain ⟨t2, ht2⟩ := List.isPrefixOf_iff_prefix.mp hx
          simp only [List.cons_append, List.nil_append, List.cons.injEq] at ht2
          exact (hc ht2.1.symm).elim
      have hbne : (c != ch) = true := bne_iff_ne.mpr hc
      have hdw : (c :: rest).dropWhile (fun c => c != ch) =
          rest.dropWhile (fun c => c != ch) := by
        simp [List.dropWhile, hbne]
      rcases ih with ⟨h1, h2⟩ | ⟨j, h1, h2, h3⟩
      · refine Or.inl ⟨?_, ?_⟩
        · simp [firstOcc, hpre, h1]
        · rw [hdw, h2]
      · refine Or.inr ⟨j + 1, ?_, ?_, ?_⟩
        · simp [firstOcc, hpre, h1]
        · rw [hdw, h2]
          rfl
        · simpa using h3

/-- The two formulations of "truncate after the last occurrence" agree. -/
theorem truncAfterLast_eq_truncAtLast (ch : Char) (s : String) :
    truncAfterLast ch s = truncAtLast ch s := by
  rcases firstOcc_single_dropWhile ch s.data.reverse with ⟨h1, h2⟩ | ⟨j, h1, h2, h3⟩
  · simp [truncAfterLast, truncAtLast, h1, h2]
  · obtain ⟨x, xs, hx⟩ := List.exists_cons_of_ne_nil h3
    rw [hx] at h2
    simp only [truncAfterLast, truncAtLast, h1, h2]
    rw [← hx, List.drop_reverse, List.reverse_reverse]

/-- The leading-fence stage of the source equals the claim's description. -/
theorem fence_stage_eq (r : String) :
    (if pyStartsWith r "```json" then (pySplit r "```json").getD 1 ""
     else if pyStartsWith r "```" then (pySplit r "```").getD 1 "" else r) =
    (if pyStartsWith r "```json" then
        String.mk (takeUntilOcc "```json".data (r.data.drop "```json".data.length))
     else if pyStartsWith r "```" then
        String.mk (takeUntilOcc "```".data (r.data.drop "```".data.length))
     else r) := by
  split_ifs with h1 h2
  · exact pySplit_getD1_of_startsWith r "```json" '`' ['`', '`', 'j', 's', 'o', 'n']
      (by decide) h1
  · exact pySplit_getD1_of_startsWith r "```" '`' ['`', '`'] (by decide) h2
  · rfl

/-- The trailing-fence stage of the source equals the claim's description. -/
theorem trail_stage_eq (r : String) :
    (if pyEndsWith r "```" then pyRsplit1Before r "```" else r) =
    (if pyEndsWith r "```" then String.mk (r.data.take (r.data.length - 3)) else r) := by
  split_ifs with h
  · exact pyRsplit1Before_of_endsWith r h
  · rfl

/-- The full cleaning stage of the source equals the claim's description,
for every raw reply. -/
theorem cleanResponse_eq_spec (raw : String) :
    cleanResponse raw = specCleanResponse raw := by
  simp only [cleanResponse, specCleanResponse]
  rw [fence_stage_eq, trail_stage_eq]

/-- The dispatch stage of the source equals the claim's description, for
every cleaned reply and every `loads`. -/
theorem dispatchParse_eq_spec (loads : String → Except String JVal)
    (response : String) :
    dispatchParse loads response = specDispatch loads response := by
  have ht1 := truncAfterLast_eq_truncAtLast ']' (pyStrip response)
  have ht2 := truncAfterLast_eq_truncAtLast (Char.ofNat 125) (pyStrip response)
  have hlb : "[".data = ['['] := by decide
  have hob : "\x7b".data = [Char.ofNat 123] := by decide
  have hsingle : ∀ (a c : Char) (t : List Char) (hx : ¬ c = a),
      [a].isPrefixOf (c :: t) = false := by
    intro a c t hx
    cases hy : [a].isPrefixOf (c :: t) with
    | false => rfl
    | true =>
      obtain ⟨t2, ht2⟩ := List.isPrefixOf_iff_prefix.mp hy
      simp only [List.cons_append, List.nil_append, List.cons.injEq] at ht2
      exact (hx ht2.1.symm).elim
  cases hd : (pyStrip response).data with
  | nil =>
    have g1 : pyStartsWith (pyStrip response) "[" = false := by
      unfold pyStartsWith
      rw [hd, hlb]
      rfl
    have g2 : pyStartsWith (pyStrip response) "\x7b" = false := by
      unfold pyStartsWith
      rw [hd, hob]
      rfl
    simp [dispatchParse, specDispatch, g1, g2, hd]
  | cons c t =>
    by_cases hc1 : c = '['
    · subst hc1
      have g1 : pyStartsWith (pyStrip response) "[" = true := by
        unfold pyStartsWith
        rw [hd, hlb]
        exact List.isPrefixOf_iff_prefix.mpr ⟨t, rfl⟩
      simp [dispatchParse, specDispatch, g1, hd, ht1]
    · by_cases hc2 : c = Char.ofNat 123
      · subst hc2
        have g1 : pyStartsWith (pyStrip response) "[" = false := by
          unfold pyStartsWith
          rw [hd, hlb]
          exact hsingle '[' (Char.ofNat 123) t (by decide)
        have g2 : pyStartsWith (pyStrip response) "\x7b" = true := by
          unfold pyStartsWith
          rw [hd, hob]
          exact List.isPrefixOf_iff_prefix.mpr ⟨t, rfl⟩
        simp [dispatchParse, specDispatch, g1, g2, hd, ht2]
      · have g1 : pyStartsWith (pyStrip response) "[" = false := by
          unfold pyStartsWith
          rw [hd, hlb]
          exact hsingle '[' c t hc1
        have g2 : pyStartsWith (pyStrip response) "\x7b" = false := by
          unfold pyStartsWith
          rw [hd, hob]
          exact hsingle (Char.ofNat 123) c t hc2
        simp [dispatchParse, specDispatch, g1, g2, hd, hc1, hc2]

/-- The rejection message of tools_manager.py line 46 is never empty. -/
theorem notAllowedMsg_ne_empty (command : String) : notAllowedMsg command ≠ "" := by
  obtain ⟨cl⟩ := command
  intro hc
  have hd := congrArg String.data hc
  simp [notAllowedMsg, String.data] at hd

/-! ## C4 — disallowed command names -/

/-- **C4.** For every command name outside the closed allow-list and every
params mapping, `execute_command` returns `success=false` with a non-empty
error string and performs no tool invocation (empty call trace, hence no
network call). -/
theorem C4_disallowed_command (tm : ToolManagerState) (command : String)
    (params : PyDict JVal) (env : ToolEnv)
    (h : command ∉ ALLOWED_COMMANDS) :
    ToolManager.execute_command tm command params env =
      ({ success := false, data := [], error := some (notAllowedMsg command) }, [])
    ∧ notAllowedMsg command ≠ "" := by
  constructor
  · simp [ToolManager.execute_command, h]
  · exact notAllowedMsg_ne_empty command

/-- Witness for C4 at the concrete command `"calculate"`. -/
theorem C4_disallowed_command_witness :
    ToolManager.execute_command tmDemo "calculate" [] envFailDemo =
      ({ success := false, data := [], error := some (notAllowedMsg "calculate") }, [])
    ∧ notAllowedMsg "calculate" ≠ "" :=
  C4_disallowed_command tmDemo "calculate" [] envFailDemo (by decide)

/-! ## C5 — parameter merging -/

/-- **C5.** For every allowed command, the parameter mapping handed to the
tool is the command's registered defaults overlaid with the caller params: a
caller-supplied key always wins, and a caller-omitted key falls back to the
default binding (in particular to the default value when one exists). -/
theorem C5_param_merge (tm : ToolManagerState) (command : String)
    (params : PyDict JVal) (_hcmd : command ∈ ALLOWED_COMMANDS)
    (hnd : (params.map Prod.fst).Nodup) (k : String) :
    (∀ v, dget params k = some v → dget (merged_params tm command params) k = some v)
    ∧ (dget params k = none →
        dget (merged_params tm command params) k =
          dget (dgetD tm.defaults command []) k) := by
  match params with
  | [] =>
    refine ⟨fun v hv => ?_, fun _ => rfl⟩
    simp [dget] at hv
  | p :: ps =>
    have hm := dget_dupdate (dgetD tm.defaults command []) (p :: ps) k hnd
    constructor
    · intro v hv
      rw [show merged_params tm command (p :: ps) =
            dupdate (dgetD tm.defaults command []) (p :: ps) from rfl, hm, hv]
      rfl
    · intro hv
      rw [show merged_params tm command (p :: ps) =
            dupdate (dgetD tm.defaults command []) (p :: ps) from rfl, hm, hv]
      rfl

/-- Witness for C5: for the `weather` command, a caller-supplied `location`
overrides the registered default. -/
theorem C5_param_merge_witness :
    dget (merged_params tmDemo "weather" [("location", JVal.str "Paris")]) "location" =
      some (JVal.str "Paris") :=
  (C5_param_merge tmDemo "weather" [("location", JVal.str "Paris")]
      (by decide) (by decide) "location").1 (JVal.str "Paris") rfl

/-! ## C1 — fail-all-or-nothing aggregation of the initial plan -/

/-- **C1.** Whenever any plan entry's `ToolResult` fails, `process_request`
returns the aggregated error message joining every failing result's error
string, discards the successful results (the reply mentions only the failing
errors), and performs neither the draft nor the finalization model call nor
any further tool call: the trace is exactly the planning call followed by the
plan's own dispatches. -/
theorem C1_plan_failure_aborts (tm : ToolManagerState) (env : OrchEnv)
    (h : ∃ r ∈ planResponses tm env, r.success = false) :
    LLMAgent.process_request tm env =
      ("Error(s) occurred: " ++ pyJoin "; "
        (((planResponses tm env).filter fun r => !r.success).map fun r => r.error.getD ""),
       OCall.planLLM :: env.plan.map fun p => OCall.exec p.1)
    ∧ OCall.draftLLM ∉ (LLMAgent.process_request tm env).2
    ∧ OCall.finalLLM ∉ (LLMAgent.process_request tm env).2 := by
  obtain ⟨r, hr, hf⟩ := h
  have hmem : r ∈ (planResponses tm env).filter fun r => !r.success :=
    List.mem_filter.mpr ⟨hr, by simp [hf]⟩
  have hne : (((planResponses tm env).filter fun r => !r.success).map
      fun r => r.error.getD "") ≠ [] := by
    intro hcon
    rw [List.map_eq_nil_iff] at hcon
    exact List.ne_nil_of_mem hmem hcon
  obtain ⟨e, es, heq⟩ := List.exists_cons_of_ne_nil hne
  have hpr : LLMAgent.process_request tm env =
      ("Error(s) occurred: " ++ pyJoin "; "
        (((planResponses tm env).filter fun r => !r.success).map fun r => r.error.getD ""),
       OCall.planLLM :: env.plan.map fun p => OCall.exec p.1) := by
    simp only [LLMAgent.process_request]
    rw [heq]
  refine ⟨hpr, ?_, ?_⟩ <;> rw [hpr] <;> simp

/-- Witness for C1: a two-command plan whose second command (`frobnicate`) is
rejected while the first (`weather`) succeeds. -/
theorem C1_plan_failure_aborts_witness :
    LLMAgent.process_request tmDemo envC1 =
      ("Error(s) occurred: " ++ pyJoin "; "
        (((planResponses tmDemo envC1).filter fun r => !r.success).map fun r => r.error.getD ""),
       OCall.planLLM :: envC1.plan.map fun p => OCall.exec p.1)
    ∧ OCall.draftLLM ∉ (LLMAgent.process_request tmDemo envC1).2
    ∧ OCall.finalLLM ∉ (LLMAgent.process_request tmDemo envC1).2 :=
  C1_plan_failure_aborts tmDemo envC1
    ⟨(ToolManager.execute_command tmDemo "frobnicate" [] envFailDemo).1,
     by
      have hlist : planResponses tmDemo envC1 =
          [(ToolManager.execute_command tmDemo "weather" [] envFailDemo).1,
           (ToolManager.execute_command tmDemo "frobnicate" [] envFailDemo).1] := rfl
      rw [hlist]
      exact List.mem_cons_of_mem _ (List.mem_cons_self _ _),
     rfl⟩

/-! ## C7 — fail-soft enrichment phase -/

/-- **C7.** When the whole plan succeeded, the enrichment phase issues exactly
one dispatcher `search` invocation per entry of `needs_search` (zero when it
is empty or absent), drops failed searches silently, and finalization is
called with exactly the successful `{query, data}` items; the trace is the
planning call, the plan's dispatches, the draft call, one `search` dispatch
per query, and the final chat call. -/
theorem C7_enrichment_fail_soft (tm : ToolManagerState) (env : OrchEnv)
    (hall : ∀ r ∈ planResponses tm env, r.success = true)
    (queries : List JVal)
    (hq : queries = match env.analysis.needs_search with
                    | some (q :: qs) => q :: qs
                    | _ => []) :
    LLMAgent.process_request tm env =
      (env.finalAnswer ((List.enumFrom 0 queries).filterMap fun p =>
        let resp := (ToolManager.execute_command tm "search" [("query", p.2)]
          (env.searchToolEnv p.1)).1
        if resp.success then some [("query", p.2), ("data", JVal.obj resp.data)] else none),
       (OCall.planLLM :: env.plan.map fun p => OCall.exec p.1) ++ [OCall.draftLLM]
         ++ (queries.map fun _ => OCall.exec "search") ++ [OCall.finalLLM]) := by
  subst hq
  have hnil : (planResponses tm env).filter (fun r => !r.success) = [] :=
    filter_fail_nil _ hall
  simp only [LLMAgent.process_request, hnil, List.map_nil]
  cases hn : env.analysis.needs_search with
  | none => simp [hn]
  | some l =>
    cases l with
    | nil => simp [hn]
    | cons q qs => simp [hn, enrichLoop_eq]

/-- Witness for C7: a successful single-command plan with one follow-up
search query. -/
theorem C7_enrichment_fail_soft_witness :
    LLMAgent.process_request tmDemo envC7 =
      (envC7.finalAnswer
        ((List.enumFrom 0 [JVal.str "lean theorem prover"]).filterMap fun p =>
          let resp := (ToolManager.execute_command tmDemo "search" [("query", p.2)]
            (envC7.searchToolEnv p.1)).1
          if resp.success then some [("query", p.2), ("data", JVal.obj resp.data)] else none),
       (OCall.planLLM :: envC7.plan.map fun p => OCall.exec p.1) ++ [OCall.draftLLM]
         ++ ([JVal.str "lean theorem prover"].map fun _ => OCall.exec "search")
         ++ [OCall.finalLLM]) :=
  C7_enrichment_fail_soft tmDemo envC7 (by decide) [JVal.str "lean theorem prover"] rfl

/-! ## C2 — transport failures in weather/search are soft -/

/-- **C2.** When the weather or search HTTP request times out or fails, the
tool catches the exception and returns a mapping carrying an `error` key, so
`execute_command` wraps it as a *successful* `ToolResult` whose data carries
the error text — hence such transport failures can never contribute to the
orchestrator's fail-all-or-nothing plan abort (which only inspects
`success=false` results). -/
theorem C2_transport_failure_is_soft (tm : ToolManagerState)
    (params : PyDict JVal) (env : ToolEnv)
    (hw : env.weather = HttpOut.timeout ∨ ∃ m, env.weather = HttpOut.reqError m)
    (hs : env.search = HttpOut.timeout ∨ ∃ m, env.search = HttpOut.reqError m) :
    ((ToolManager.execute_command tm "weather" params env).1.success = true
      ∧ ∃ e, dget (ToolManager.execute_command tm "weather" params env).1.data "error" =
          some (JVal.str e))
    ∧ ((ToolManager.execute_command tm "search" params env).1.success = true
      ∧ ∃ e, dget (ToolManager.execute_command tm "search" params env).1.data "error" =
          some (JVal.str e)) := by
  have hwEq : (ToolManager.execute_command tm "weather" params env).1 =
      { success := true
        data := WeatherTool.get_weather
          (jOpt (dget (merged_params tm "weather" params) "location")) env.weather
        error := none } := rfl
  have hsEq : (ToolManager.execute_command tm "search" params env).1 =
      { success := true
        data := SearchTool.search
          (jOpt (dget (merged_params tm "search" params) "query")) env.search
        error := none } := rfl
  refine ⟨⟨by rw [hwEq], ?_⟩, ⟨by rw [hsEq], ?_⟩⟩
  · rw [hwEq]
    rcases hw with h | ⟨m, h⟩ <;> rw [h] <;> exact ⟨_, rfl⟩
  · rw [hsEq]
    rcases hs with h | ⟨m, h⟩ <;> rw [h] <;> exact ⟨_, rfl⟩

/-- Witness for C2 at timed-out weather and search requests. -/
theorem C2_transport_failure_is_soft_witness :
    ((ToolManager.execute_command tmDemo "weather" [] envFailDemo).1.success = true
      ∧ ∃ e, dget (ToolManager.execute_command tmDemo "weather" [] envFailDemo).1.data "error" =
          some (JVal.str e))
    ∧ ((ToolManager.execute_command tmDemo "search" [] envFailDemo).1.success = true
      ∧ ∃ e, dget (ToolManager.execute_command tmDemo "search" [] envFailDemo).1.data "error" =
          some (JVal.str e)) :=
  C2_transport_failure_is_soft tmDemo [] envFailDemo (Or.inl rfl) (Or.inl rfl)

/-! ## C3 — parse error on text starting with neither `[` nor `{`

The claim says the raised error message contains the original raw reply.
In llm.py the `else` branch (line 212) raises
`ValueError("Response neither starts with [ nor {")` — a fixed message with
no interpolation — and the `except json.JSONDecodeError` clause (line 214)
does not catch a plain `ValueError`, so this message propagates unchanged:
the raw text appears only in the *decode-failure* message (line 216), not in
this branch.  The claim is therefore false as stated; what holds is that a
parse error is raised (never a silent default), with that fixed message. -/

/-- **C3 counterexample.** On the reply `"hello world"` the parser raises
`ValueError("Response neither starts with [ nor {")`, and the raw reply text
is *not* a substring of that message. -/
theorem C3_counterexample :
    structured_output_parse loadsDemo "hello world" =
      Except.error "Response neither starts with [ nor \x7b"
    ∧ listInfixB "hello world".data
        "Response neither starts with [ nor \x7b".data = false := by
  exact ⟨rfl, by decide⟩

/-- **C3 amended.** For every reply whose cleaned text starts with neither
`[` nor `{`, the parser raises a parse error — it never silently returns a
default value — but the error message is the fixed string
`"Response neither starts with [ nor {"`, which does not include the raw
reply text. -/
theorem C3_amended_parse_error (loads : String → Except String JVal)
    (raw : String)
    (h1 : pyStartsWith (pyStrip (cleanResponse raw)) "[" = false)
    (h2 : pyStartsWith (pyStrip (cleanResponse raw)) "\x7b" = false) :
    structured_output_parse loads raw =
      Except.error "Response neither starts with [ nor \x7b" := by
  simp [structured_output_parse, dispatchParse, h1, h2]

/-- Witness for the amended C3 on a refusal-style reply. -/
theorem C3_amended_parse_error_witness :
    structured_output_parse loadsDemo "I cannot answer that" =
      Except.error "Response neither starts with [ nor \x7b" :=
  C3_amended_parse_error loadsDemo "I cannot answer that" rfl rfl

/-! ## C6 — fence stripping, dispatch, truncation and wrapping

The claim says a leading fence marker is stripped "with or without a
language tag".  The source (llm.py lines 180–183) special-cases only the
`json` tag: `response.split("```json")[1]` for a ```` ```json ```` fence and
`response.split("```")[1]` for a bare fence.  A fence with any *other*
language tag falls into the bare-fence branch, which keeps the tag text
(`"python\n..."`), so the cleaned text starts with the tag and parsing
fails.  The dispatch/truncate/wrap behaviour is otherwise as claimed. -/

/-- **C6 counterexample.** A fenced reply with the language tag `python`
whose content would parse as an array is *not* recovered: the parser raises
the shape error instead of returning the parsed array. -/
theorem C6_counterexample :
    structured_output_parse loadsDemo "```python\n[1]\n```" =
      Except.error "Response neither starts with [ nor \x7b"
    ∧ loadsDemo "[1]" = Except.ok (JVal.arr [JVal.num 1]) :=
  ⟨rfl, rfl⟩

/-- **C6 amended.** For *every* model reply and every JSON decoder, the
parser's post-processing is: strip whitespace; a reply beginning with a
```` ```json ````-tagged fence (or, failing that, a bare ` ``` ` fence —
fences with any other language tag are not recognized) keeps only the
segment between that marker and its next occurrence (everything after it
when there is no second occurrence); remove a trailing ` ``` ` fence;
unescape underscores; then dispatch on the first character of the
re-stripped cleaned text: `[` truncates after the last `]` and returns the
parsed array, `{` truncates after the last `}` and returns the parsed
object wrapped in a one-element sequence — so every successful parse yields
an ordered sequence of parsed values — and any other (or no) first
character is a parse failure.  Stated as: the source embedding equals the
claim-side restatement `specStructuredParse` on all inputs. -/
theorem C6_amended_fence_dispatch (loads : String → Except String JVal)
    (raw : String) :
    structured_output_parse loads raw = specStructuredParse loads raw := by
  unfold structured_output_parse specStructuredParse
  rw [cleanResponse_eq_spec, dispatchParse_eq_spec]

/-! ## C8 — rate limiter spacing -/

/-- **C8.** With the configured rate of 10 requests per minute (minimum
interval `60/10 = 6` seconds), after a first `wait()` call records its start
time, a second `wait()` call — at any later clock reading, in particular in
immediate succession — does not resolve before 6 seconds past the recorded
start time. -/
theorem C8_rate_limiter_spacing (t1 t2 : ℚ) :
    ((RateLimiter.make 10).wait t1).2.last_request_time + 6 ≤
      (((RateLimiter.make 10).wait t1).2.wait t2).1 := by
  simp only [RateLimiter.make, RateLimiter.wait]
  norm_num
  split_ifs <;> linarith

/-! ## C9 — construction-time configuration validation

The claim says a missing API key, model identifier *or* endpoint URL raises
at construction time.  `LLMConfig.__init__` (llm.py lines 52–69) validates
only the API key: `self.api_url` and `self.model` are assigned whatever
`os.getenv` returned (possibly `None`) with no check, so their absence
surfaces only at call time (e.g. `requests.post(None, ...)`). -/

/-- **C9 counterexample.** Constructing the configuration with an API key but
no endpoint URL and no model succeeds — no configuration error is raised. -/
theorem C9_counterexample :
    LLMConfig_init { LLM_API_URL := none, LLM_API_KEY := none, LLM_MODEL := none }
        none (some "sk-test") =
      Except.ok { api_url := none, api_key := some "sk-test", model := none } := rfl

/-- **C9 amended.** Construction fails if and only if the API key is missing
(argument and environment both unset); a missing model identifier or
endpoint URL is not checked at construction time. -/
theorem C9_amended_only_key_checked (envv : EnvVars)
    (api_url api_key : Option String) :
    (LLMConfig_init envv api_url api_key =
        Except.error "API key not provided and LLM_API_KEY not found in environment")
      ↔ (api_key.orElse fun _ => envv.LLM_API_KEY) = none := by
  simp only [LLMConfig_init]
  cases hk : api_key.orElse fun _ => envv.LLM_API_KEY <;> simp [hk]

/-! ## C10 — execute_command always returns a well-formed ToolResult

The claim additionally asserts `data` is non-empty whenever `success=true`.
The news tool returns `response.json()` verbatim (news_tool.py line 16), so
an empty JSON object from the API is wrapped as a *successful* `ToolResult`
with empty data — refuting the non-emptiness half.  Everything else holds:
both fields are structurally present, a failure always carries a non-empty
error (given non-empty exception messages) with empty data, a success always
carries `error=None`, and no exception propagates (the embedding of
`execute_command` is a total function into `ToolResponse`). -/

/-- **C10 counterexample.** `execute_command("news", {})` against an empty
JSON body returns `success=true` with *empty* data, refuting "data non-empty
when success=true". -/
theorem C10_counterexample :
    (ToolManager.execute_command tmDemo "news" [] envNewsEmpty).1 =
      { success := true, data := [], error := none } := rfl

/-- **C10 amended.** Every value `execute_command` returns is a well-formed
`ToolResult` (both fields structurally present, by the type of the
embedding's total function — no exception propagates): on success the error
field is `None`; on failure the data mapping is empty and the error is a
non-empty string (assuming the message of a propagating news exception is
non-empty); `data` may be empty on success only when a tool relays an empty
mapping from its API. -/
theorem C10_amended_wellformed (tm : ToolManagerState) (command : String)
    (params : PyDict JVal) (env : ToolEnv)
    (hexn : ∀ m, env.news = NewsOut.exn m → m ≠ "") :
    ((ToolManager.execute_command tm command params env).1.success = true →
      (ToolManager.execute_command tm command params env).1.error = none)
    ∧ ((ToolManager.execute_command tm command params env).1.success = false →
      (ToolManager.execute_command tm command params env).1.data = []
      ∧ ∃ e, (ToolManager.execute_command tm command params env).1.error = some e
          ∧ e ≠ "") := by
  obtain ⟨se, ne, we, te⟩ := env
  by_cases hmem : command ∈ ALLOWED_COMMANDS
  · have hmem' := hmem
    simp only [ALLOWED_COMMANDS, List.mem_cons, List.mem_singleton,
      List.not_mem_nil, or_false] at hmem'
    rcases hmem' with rfl | rfl | rfl | rfl | rfl
    · exact ⟨fun _ => rfl, fun hf => nomatch hf⟩
    · cases ne with
      | ok body =>
        cases body with
        | obj kvs => exact ⟨fun _ => rfl, fun hf => nomatch hf⟩
        | null => exact ⟨(fun ht => nomatch ht), fun _ => ⟨rfl, ⟨pydanticErrMsg, rfl, by decide⟩⟩⟩
        | bool b => exact ⟨(fun ht => nomatch ht), fun _ => ⟨rfl, ⟨pydanticErrMsg, rfl, by decide⟩⟩⟩
        | num n => exact ⟨(fun ht => nomatch ht), fun _ => ⟨rfl, ⟨pydanticErrMsg, rfl, by decide⟩⟩⟩
        | str s => exact ⟨(fun ht => nomatch ht), fun _ => ⟨rfl, ⟨pydanticErrMsg, rfl, by decide⟩⟩⟩
        | arr xs => exact ⟨(fun ht => nomatch ht), fun _ => ⟨rfl, ⟨pydanticErrMsg, rfl, by decide⟩⟩⟩
      | exn m =>
        exact ⟨(fun ht => nomatch ht), fun _ => ⟨rfl, ⟨m, rfl, hexn m rfl⟩⟩⟩
    · exact ⟨fun _ => rfl, fun hf => nomatch hf⟩
    · exact ⟨fun _ => rfl, fun hf => nomatch hf⟩
    · exact ⟨fun _ => rfl, fun hf => nomatch hf⟩
  · have hEq : (ToolManager.execute_command tm command params
        { search := se, news := ne, weather := we, time := te }).1 =
        { success := false, data := [], error := some (notAllowedMsg command) } := by
      simp [ToolManager.execute_command, hmem]
    rw [hEq]
    exact ⟨(fun ht => nomatch ht),
           fun _ => ⟨rfl, ⟨notAllowedMsg command, rfl, notAllowedMsg_ne_empty command⟩⟩⟩

/-- Witness for the amended C10 at the raising news call. -/
theorem C10_amended_wellformed_witness :
    ((ToolManager.execute_command tmDemo "news" [] envFailDemo).1.success = true →
      (ToolManager.execute_command tmDemo "news" [] envFailDemo).1.error = none)
    ∧ ((ToolManager.execute_command tmDemo "news" [] envFailDemo).1.success = false →
      (ToolManager.execute_command tmDemo "news" [] envFailDemo).1.data = []
      ∧ ∃ e, (ToolManager.execute_command tmDemo "news" [] envFailDemo).1.error = some e
          ∧ e ≠ "") :=
  C10_amended_wellformed tmDemo "news" [] envFailDemo
    (by
      intro m h
      have h' : NewsOut.exn "boom" = NewsOut.exn m := h
      injection h' with h2
      rw [← h2]
      decide)

/-! ## Concrete evaluations

Sanity checks of the embedding on the spec's worked examples (kept as
anonymous theorems). -/

example : pyStrip "  ab\n" = "ab" := rfl
example : pySplit "```json\nX\n```" "```json" = ["", "\nX\n```"] := rfl
example : pyJoin "```" (["\nX\n", ""].dropLast) = "\nX\n" := rfl
example : pyReplace "a\\_b" "\\_" "_" = "a_b" := rfl
example : truncAfterLast ']' "[1] tail" = "[1]" := rfl
example : truncAfterLast ']' "no bracket" = "no bracket" := rfl
example : dupdate [("a", 1), ("b", 2)] [("b", 3), ("c", 4)] =
    [("a", 1), ("b", 3), ("c", 4)] := rfl
example : cleanResponse "```json\n[1, 2]\n```" = "\n[1, 2]\n" := rfl
example : cleanResponse "```\nA``` B\n```" = "\nA" := rfl
example : pyRsplit1Before "A`````" "```" = "A``" := rfl
example : specStructuredParse loadsDemo "```json\n[1, 2]\n```" =
    Except.ok [JVal.num 1, JVal.num 2] := rfl
example : cleanResponse "```\n[1, 2]\n```" = "\n[1, 2]\n" := rfl
example : cleanResponse "```python\n[1]\n```" = "python\n[1]\n" := rfl
example : structured_output_parse loadsDemo "```json\n[1, 2]\n```" =
    Except.ok [JVal.num 1, JVal.num 2] := rfl
example : structured_output_parse loadsDemo "\x7b\"a\": 1\x7d note" =
    Except.ok [JVal.obj [("a", JVal.num 1)]] := rfl
example :
    (ToolManager.execute_command tmDemo "weather" [] envFailDemo).1.success = true := rfl
example :
    (ToolManager.execute_command tmDemo "news" [] envFailDemo).1.error = some "boom" := rfl
example :
    (ToolManager.execute_command tmDemo "frobnicate" [] envFailDemo).2 = [] := rfl
example :
    (LLMAgent.process_request tmDemo envC1).1 =
      "Error(s) occurred: Command frobnicate not allowed. Allowed commands: [\x27search\x27, \x27news\x27, \x27weather\x27, \x27time\x27, \x27help\x27]" := rfl
example :
    (LLMAgent.process_request tmDemo envC7).2 =
      [OCall.planLLM, OCall.exec "help", OCall.draftLLM, OCall.exec "search",
       OCall.finalLLM] := rfl
example : (LLMAgent.process_request tmDemo envC7).1 = "final with 1 extras" := rfl
